import Mathlib

set_option maxHeartbeats 1000000
set_option linter.unusedVariables false

deriving instance DecidableEq for Except

namespace Wings

/-!
Shallow embedding of the Pterodactyl Wings server-lifecycle subsystem:
the Docker environment power operations (`Start`, `Stop`, `WaitForStop`,
`Terminate`, `Restart`, `OnBeforeStart` from `environment/docker/power.go`),
the container management operations (`Create`, `Destroy`, `Attach`,
`followOutput`, `ensureImageExists` from the Docker environment source),
and the installer constructor (`New` from `installer/installer.go`).

Each operation is modelled as a pure function of the per-server
environment state together with an "inputs" record that fixes the outcome
of every external container-runtime call the operation performs (ok,
not-found, or a transport error), exactly mirroring the branch structure
of the Go source.  State transitions performed via `setState` are recorded
as a list of (previous, new) pairs; externally visible commands issued to
the runtime (remove, create, kill, ...) are recorded as a list of
`Action`s.
-/

/-- The four process states from `system` (ProcessOfflineState,
ProcessStartingState, ProcessRunningState, ProcessStoppingState). -/
inductive ProcessState
  | Offline
  | Starting
  | Running
  | Stopping
deriving DecidableEq, Repr

/-- Errors visible in the model.  `notFound` is the class of errors for
which Docker's `client.IsErrNotFound` returns true; `transport n` is an
arbitrary distinguishable transport failure; `timeout` is a context
deadline-exceeded error; the remaining constructors are errors produced
by the wings code itself. -/
inductive Err
  | notFound
  | transport (n : Nat)
  | timeout
  | noSuchContainer
  | notAttached
  | keyPathNotFound
  | unmarshalType
  | restartInProgress
deriving DecidableEq, Repr

/-- Outcome of an external call: Go's `(..., err)` with the `err == nil`,
`IsErrNotFound(err)` and other cases distinguished. -/
abbrev DRes (α : Type) := Except Err α

/-- Per-server environment state: the current process state, the list of
state-change events published so far (pairs of previous and new state),
and whether an attach stream is currently set (`stream != nil`). -/
structure EnvState where
  state : ProcessState
  events : List (ProcessState × ProcessState)
  attached : Bool
deriving DecidableEq, Repr

/-- Externally visible commands issued to the container runtime or the
attached stream while an operation runs. -/
inductive Action
  | removeContainer (force : Bool) (volumes : Bool)
  | createContainer
  | pullImage (img : String)
  | startContainer
  | stopContainer
  | killContainer (sig : String)
  | sendCommand (cmd : String)
  | truncateLog
deriving DecidableEq, Repr

/-- The server's stop directive type (`api.ProcessStopSignal`,
`api.ProcessStopCommand`, or any other value). -/
inductive StopType
  | signal
  | command
  | other
deriving DecidableEq, Repr

/-- The slice of the environment's configuration the modelled operations
read: the configured image and the stop directive. -/
structure Env where
  image : String
  stopType : StopType
  stopValue : String
deriving DecidableEq, Repr

/-- Modelled from the spec: the per-server `setState` (the state setter
lives in the server layer, outside the provided sources).  Spec §3:
"Every transition publishes a state-change event carrying (previous,
new).  A transition to the same state is a no-op (no event)." -/
def setState (ns : ProcessState) (es : EnvState) : EnvState :=
  if es.state = ns then es
  else { es with state := ns, events := es.events ++ [(es.state, ns)] }

/-- Go's `strings.TrimPrefix`. -/
def trimPre (s pre : String) : String :=
  if s.startsWith pre then s.drop pre.length else s

/-- Go's `strings.TrimSuffix`. -/
def trimSuf (s suf : String) : String :=
  if s.endsWith suf then s.dropRight suf.length else s

/-- The signal-name munging in `Terminate`:
`strings.TrimSuffix(strings.TrimPrefix(signal.String(), "signal "), "ed")`. -/
def signalName (s : String) : String :=
  trimSuf (trimPre s ("signal ")) ("ed")

/-- `os.Kill.String()`. -/
def osKillName : String := "killed"

/-- The part of `ContainerInspect`'s answer the power code reads. -/
structure ContainerInfo where
  running : Bool
  logPathExists : Bool
deriving DecidableEq, Repr

/-- Runtime-call outcomes consumed by `Terminate`. -/
structure TerminateInputs where
  inspect : DRes ContainerInfo
  kill : DRes Unit
deriving DecidableEq, Repr

/-- `Environment.Terminate` from `environment/docker/power.go`: inspect the
container; if it is not running return nil; otherwise set Stopping, kill
with the munged signal name, and on success set Offline. -/
def Terminate (sigStr : String) (i : TerminateInputs) (es : EnvState) :
    Except Err Unit × EnvState × List Action :=
  match i.inspect with
  | .error e => (.error e, es, [])
  | .ok c =>
    if !c.running then (.ok (), es, [])
    else
      match i.kill with
      | .error e => (.error e, setState ProcessState.Stopping es,
          [Action.killContainer (signalName sigStr)])
      | .ok _ => (.ok (),
          setState ProcessState.Offline (setState ProcessState.Stopping es),
          [Action.killContainer (signalName sigStr)])

/-- Modelled from the spec: `SendCommand` (not among the provided sources)
"writes `s\n` to the process input stream", failing with NotAttached when
no stream is attached (§4.3).  `Stop` only calls it under an
`IsAttached()` guard. -/
def SendCommand (cmd : String) (es : EnvState) :
    Except Err Unit × EnvState × List Action :=
  if es.attached then (.ok (), es, [Action.sendCommand cmd])
  else (.error Err.notAttached, es, [])

/-- Runtime-call outcomes consumed by `Stop`. -/
structure StopInputs where
  terminate : TerminateInputs
  containerStop : DRes Unit
deriving DecidableEq, Repr

/-- `Environment.Stop` from `environment/docker/power.go`: stop type
Signal delegates to `Terminate(os.Kill)`; otherwise set Stopping, send
the stop command when attached and stop type is Command, else issue
`ContainerStop` with a 10s grace (not-found clears the stream, sets
Offline and succeeds). -/
def Stop (env : Env) (i : StopInputs) (es : EnvState) :
    Except Err Unit × EnvState × List Action :=
  if env.stopType = StopType.signal then
    Terminate osKillName i.terminate es
  else
    if (setState ProcessState.Stopping es).attached
        && env.stopType = StopType.command then
      SendCommand env.stopValue (setState ProcessState.Stopping es)
    else
      match i.containerStop with
      | .ok _ => (.ok (), setState ProcessState.Stopping es,
          [Action.stopContainer])
      | .error e =>
        if e = Err.notFound then
          (.ok (), setState ProcessState.Offline
              { setState ProcessState.Stopping es with attached := false },
            [Action.stopContainer])
        else (.error e, setState ProcessState.Stopping es,
          [Action.stopContainer])

/-- Outcome of the `ContainerWait(ctx, id, WaitConditionNotRunning)`
select block in `WaitForStop`: the ok channel fired, the error channel
fired (with a nil or non-nil error), or the context deadline expired. -/
inductive WaitOutcome
  | stopped
  | waitErrNil
  | waitErr (e : Err)
  | deadline
deriving DecidableEq, Repr

/-- Runtime-call outcomes consumed by `WaitForStop`. -/
structure WaitForStopInputs where
  stop : StopInputs
  wait : WaitOutcome
  terminate : TerminateInputs
deriving DecidableEq, Repr

/-- `Environment.WaitForStop` from `environment/docker/power.go`: call
`Stop` (propagating its error), then wait for not-running with a
caller-supplied deadline; on deadline expiry call `Terminate(os.Kill)`
when `terminate` is true, else return the deadline error. -/
def WaitForStop (env : Env) (seconds : Nat) (terminate : Bool)
    (i : WaitForStopInputs) (es : EnvState) :
    Except Err Unit × EnvState × List Action :=
  match Stop env i.stop es with
  | (.error e, es1, a1) => (.error e, es1, a1)
  | (.ok _, es1, a1) =>
    match i.wait with
    | .deadline =>
      if terminate then
        ((Terminate osKillName i.terminate es1).1,
         (Terminate osKillName i.terminate es1).2.1,
         a1 ++ (Terminate osKillName i.terminate es1).2.2)
      else (.error Err.timeout, es1, a1)
    | .waitErr e => (.error e, es1, a1)
    | .waitErrNil => (.ok (), es1, a1)
    | .stopped => (.ok (), es1, a1)

/-- A local Docker image as seen by `ImageList`: its repo tags. -/
structure Image where
  repoTags : List String
deriving DecidableEq, Repr

/-- Runtime-call outcomes consumed by `ensureImageExists`: the result of
`ImagePull`, of `ImageList`, and of scanning the pull progress stream. -/
structure EnsureInputs where
  pull : DRes Unit
  list : DRes (List Image)
  scan : DRes Unit
deriving DecidableEq, Repr

/-- Whether some locally listed image carries a repo tag equal to the
configured image reference (the inner loops of `ensureImageExists`). -/
def hasLocalTag (image : String) (images : List Image) : Bool :=
  images.any (fun img => img.repoTags.any (fun t => t = image))

/-- `DockerEnvironment.ensureImageExists`: attempt the pull (15-minute
deadline); on pull failure list local images (a listing failure aborts
with the listing error), succeed with only a warning when a local tag
matches the image, otherwise fail with the pull error.  On pull success
drain the progress stream and propagate a scanner error. -/
def ensureImageExists (image : String) (i : EnsureInputs) :
    Except Err Unit × List Action :=
  match i.pull with
  | .error e =>
    match i.list with
    | .error ierr => (.error ierr, [Action.pullImage image])
    | .ok images =>
      if hasLocalTag image images then (.ok (), [Action.pullImage image])
      else (.error e, [Action.pullImage image])
  | .ok _ =>
    match i.scan with
    | .error e => (.error e, [Action.pullImage image])
    | .ok _ => (.ok (), [Action.pullImage image])

/-- Runtime-call outcomes consumed by `Create`: the initial
`ContainerInspect` (ok means the container exists), the image-pull
grouping, and `ContainerCreate`. -/
structure CreateInputs where
  inspect : DRes Unit
  ensure : EnsureInputs
  create : DRes Unit
deriving DecidableEq, Repr

/-- `DockerEnvironment.Create`: if the container already exists return
nil immediately; a non-not-found inspect error aborts; otherwise ensure
the image exists and create the container with the fixed configuration. -/
def Create (env : Env) (i : CreateInputs) : Except Err Unit × List Action :=
  match i.inspect with
  | .ok _ => (.ok (), [])
  | .error e =>
    if e ≠ Err.notFound then (.error e, [])
    else
      match ensureImageExists env.image i.ensure with
      | (.error e2, acts) => (.error e2, acts)
      | (.ok _, acts) =>
        match i.create with
        | .error e3 => (.error e3, acts ++ [Action.createContainer])
        | .ok _ => (.ok (), acts ++ [Action.createContainer])

/-- Runtime-call outcomes consumed by `OnBeforeStart`: the
`ContainerRemove(RemoveVolumes: true)` and the nested `Create`. -/
structure OnBeforeStartInputs where
  remove : DRes Unit
  create : CreateInputs
deriving DecidableEq, Repr

/-- `Environment.OnBeforeStart` from `environment/docker/power.go`:
always remove any existing container (ignoring not-found) and then
re-create it via `Create`. -/
def OnBeforeStart (env : Env) (i : OnBeforeStartInputs) :
    Except Err Unit × List Action :=
  match i.remove with
  | .error e =>
    if e ≠ Err.notFound then (.error e, [Action.removeContainer false true])
    else
      ((Create env i.create).1,
       Action.removeContainer false true :: (Create env i.create).2)
  | .ok _ =>
    ((Create env i.create).1,
     Action.removeContainer false true :: (Create env i.create).2)

/-- Runtime-call outcomes consumed by `Attach`/`followOutput`:
`Exists()`'s (bool, error) pair, `ContainerLogs`, and `ContainerAttach`. -/
structure AttachInputs where
  existsRes : Bool × Option Err
  logs : DRes Unit
  attach : DRes Unit
deriving DecidableEq, Repr

/-- `DockerEnvironment.followOutput`: fail when the container does not
exist (propagating `Exists`'s error if there was one, else a
"no such container" error), otherwise start the log follower and return
`ContainerLogs`'s error result. -/
def followOutput (i : AttachInputs) : Except Err Unit :=
  if !i.existsRes.1 then
    match i.existsRes.2 with
    | some e => .error e
    | none => .error Err.noSuchContainer
  else i.logs

/-- `DockerEnvironment.Attach`: no-op when already attached; start the
log follower, open the bidirectional attach stream and record it.  The
spawned stream-close handler is modelled separately as `onStreamClose`. -/
def Attach (i : AttachInputs) (es : EnvState) : Except Err Unit × EnvState :=
  if es.attached then (.ok (), es)
  else
    match followOutput i with
    | .error e => (.error e, es)
    | .ok _ =>
      match i.attach with
      | .error e => (.error e, es)
      | .ok _ => (.ok (), { es with attached := true })

/-- The deferred handler of `Attach`'s copy goroutine: when the attach
stream closes, set the state to Offline and clear the stream. -/
def onStreamClose (es : EnvState) : EnvState :=
  { setState ProcessState.Offline es with attached := false }

/-- Runtime-call outcomes consumed by `Start`: the initial
`ContainerInspect`, the log-file truncation, the `OnBeforeStart`
grouping, `ContainerStart`, and the final `Attach`. -/
structure StartInputs where
  inspect : DRes ContainerInfo
  truncate : DRes Unit
  before : OnBeforeStartInputs
  startC : DRes Unit
  attach : AttachInputs
deriving DecidableEq, Repr

/-- The tail of `Start` beginning at `e.setState(ProcessStartingState)`:
from here `sawError` is true, so an error from `OnBeforeStart` or
`ContainerStart` makes the deferred handler set Stopping then Offline;
once `ContainerStart` succeeds `sawError` is reset and the final
`Attach`'s error (if any) propagates without touching the state. -/
def startChain (env : Env) (i : StartInputs) (es : EnvState)
    (acts : List Action) : Except Err Unit × EnvState × List Action :=
  match OnBeforeStart env i.before with
  | (.error e, a2) =>
    (.error e,
     setState ProcessState.Offline (setState ProcessState.Stopping
       (setState ProcessState.Starting es)),
     acts ++ a2)
  | (.ok _, a2) =>
    match i.startC with
    | .error e =>
      (.error e,
       setState ProcessState.Offline (setState ProcessState.Stopping
         (setState ProcessState.Starting es)),
       acts ++ a2 ++ [Action.startContainer])
    | .ok _ =>
      ((Attach i.attach (setState ProcessState.Starting es)).1,
       (Attach i.attach (setState ProcessState.Starting es)).2,
       acts ++ a2 ++ [Action.startContainer])

/-- `Environment.Start` from `environment/docker/power.go`: inspect the
container (not-found falls through); when it is already running set
Running and attach (recovery path); otherwise truncate the log file when
it exists, set Starting, run `OnBeforeStart`, issue `ContainerStart`
(10s deadline) and attach, with the `sawError` sentinel handled by
`startChain`. -/
def Start (env : Env) (i : StartInputs) (es : EnvState) :
    Except Err Unit × EnvState × List Action :=
  match i.inspect with
  | .error e =>
    if e = Err.notFound then startChain env i es []
    else (.error e, es, [])
  | .ok c =>
    if c.running then
      ((Attach i.attach (setState ProcessState.Running es)).1,
       (Attach i.attach (setState ProcessState.Running es)).2,
       [])
    else if c.logPathExists then
      match i.truncate with
      | .error e => (.error e, es, [Action.truncateLog])
      | .ok _ => startChain env i es [Action.truncateLog]
    else startChain env i es []

/-- Runtime-call outcomes consumed by `Restart`. -/
structure RestartInputs where
  wfs : WaitForStopInputs
  start : StartInputs
deriving DecidableEq, Repr

/-- `Environment.Restart` from `environment/docker/power.go`:
`WaitForStop(60, false)`, propagating its error, then `Start`. -/
def Restart (env : Env) (i : RestartInputs) (es : EnvState) :
    Except Err Unit × EnvState × List Action :=
  match WaitForStop env 60 false i.wfs es with
  | (.error e, es1, a1) => (.error e, es1, a1)
  | (.ok _, es1, a1) =>
    ((Start env i.start es1).1, (Start env i.start es1).2.1,
     a1 ++ (Start env i.start es1).2.2)

/-- The spec's description of Restart (§4.3): run `WaitForStop(60,
false)`; if it returns an error, return that error without invoking
`Start`; otherwise run `Start`. -/
def RestartSpec (env : Env) (i : RestartInputs) (es : EnvState) :
    Except Err Unit × EnvState × List Action :=
  match (WaitForStop env 60 false i.wfs es).1 with
  | .error e => (.error e, (WaitForStop env 60 false i.wfs es).2.1,
      (WaitForStop env 60 false i.wfs es).2.2)
  | .ok _ =>
    ((Start env i.start (WaitForStop env 60 false i.wfs es).2.1).1,
     (Start env i.start (WaitForStop env 60 false i.wfs es).2.1).2.1,
     (WaitForStop env 60 false i.wfs es).2.2 ++
       (Start env i.start (WaitForStop env 60 false i.wfs es).2.1).2.2)

/-- `DockerEnvironment.Destroy`: set Stopping, remove the container with
force and volume removal; a not-found removal error is returned as
success (leaving the state as it is); otherwise set Offline and return
the removal result. -/
def Destroy (removeRes : DRes Unit) (es : EnvState) :
    Except Err Unit × EnvState × List Action :=
  match removeRes with
  | .error e =>
    if e = Err.notFound then
      (.ok (), setState ProcessState.Stopping es,
        [Action.removeContainer true true])
    else
      (.error e,
       setState ProcessState.Offline (setState ProcessState.Stopping es),
       [Action.removeContainer true true])
  | .ok _ =>
    (.ok (),
     setState ProcessState.Offline (setState ProcessState.Stopping es),
     [Action.removeContainer true true])

/-- The environment operations quantified over by the transition-table
claim, with the runtime-call outcomes each consumes. -/
inductive Op
  | start (i : StartInputs)
  | stop (i : StopInputs)
  | waitForStop (seconds : Nat) (terminate : Bool) (i : WaitForStopInputs)
  | terminate (sigStr : String) (i : TerminateInputs)
  | destroy (removeRes : DRes Unit)
  | streamClose

/-- Run one environment operation from a given environment state. -/
def runOp (env : Env) (op : Op) (es : EnvState) :
    Except Err Unit × EnvState × List Action :=
  match op with
  | .start i => Start env i es
  | .stop i => Stop env i es
  | .waitForStop s t i => WaitForStop env s t i es
  | .terminate sigStr i => Terminate sigStr i es
  | .destroy r => Destroy r es
  | .streamClose => (.ok (), onStreamClose es, [])

/-- Ground-truth world used for the `Create` round-trip properties: does
the container exist, which images are local, does the registry pull work,
does the image listing work, does container creation work. -/
structure World where
  containerExists : Bool
  images : List Image
  pullOk : Bool
  listOk : Bool
  createOk : Bool
deriving DecidableEq, Repr

/-- The runtime-call outcomes a faithfully responding runtime produces
for `Create` in a given world. -/
def worldInputs (w : World) : CreateInputs :=
  { inspect := if w.containerExists then .ok () else .error Err.notFound
    ensure :=
      { pull := if w.pullOk then .ok () else .error (Err.transport 0)
        list := if w.listOk then .ok w.images else .error (Err.transport 1)
        scan := .ok () }
    create := if w.createOk then .ok () else .error (Err.transport 2) }

/-- Apply the externally visible commands an operation issued to the
world: container creation and removal update container existence. -/
def applyActions (w : World) (acts : List Action) : World :=
  List.foldl
    (fun w a =>
      match a with
      | Action.createContainer => { w with containerExists := true }
      | Action.removeContainer _ _ => { w with containerExists := false }
      | _ => w)
    w acts

/-- `Create` against a faithfully responding runtime in world `w`. -/
def CreateW (env : Env) (w : World) :
    Except Err Unit × World × List Action :=
  ((Create env (worldInputs w)).1,
   applyActions w (Create env (worldInputs w)).2,
   (Create env (worldInputs w)).2)

/-!  The installer constructor (`installer/installer.go`). -/

/-- A JSON value, the shape of the install request payload. -/
inductive Json
  | null
  | bool (b : Bool)
  | num (n : Int)
  | str (s : String)
  | arr (xs : List Json)
  | obj (fields : List (String × Json))

/-- Path lookup in a JSON object tree (`jsonparser.Get`): `none` is
jsonparser's KeyPathNotFoundError. -/
def jget : Json → List String → Option Json
  | j, [] => some j
  | Json.obj fs, k :: ks =>
    match fs.find? (fun p => p.1 = k) with
    | some p => jget p.2 ks
    | none => none
  | _, _ :: _ => none

/-- `getString` from `installer/installer.go`: the string at the key
path, or the empty string when absent or not a string. -/
def getString (data : Json) (ks : List String) : String :=
  match jget data ks with
  | some (Json.str s) => s
  | _ => ""

/-- `getInt` from `installer/installer.go`: the integer at the key path,
or 0 when absent or not a number. -/
def getInt (data : Json) (ks : List String) : Int :=
  match jget data ks with
  | some (Json.num n) => n
  | _ => 0

/-- A lowercase hexadecimal digit. -/
def isHexDigit (c : Char) : Bool :=
  c.isDigit || (('a') ≤ c && c ≤ ('f'))

/-- govalidator's `IsUUIDv4`: 36 characters matching
8-4-4-4-12 lowercase hex groups with version nibble `4` and variant
nibble in `[89ab]`. -/
def isUUIDv4 (s : String) : Bool :=
  let cs := s.toList
  cs.length = 36 &&
    (List.range 36).all (fun i =>
      match cs.get? i with
      | none => false
      | some c =>
        if i = 8 || i = 13 || i = 18 || i = 23 then c = ('-')
        else if i = 14 then c = ('4')
        else if i = 19 then c = ('8') || c = ('9') || c = ('a') || c = ('b')
        else isHexDigit c)

/-- Go's `json.Unmarshal` of a JSON value into
`environment.Variables` (a map from strings to arbitrary values): an
object or null succeeds, anything else is a type error. -/
def unmarshalEnvVars : Json → Except Err (List (String × Json))
  | Json.obj fs => .ok fs
  | Json.null => .ok []
  | _ => .error Err.unmarshalType

/-- Unmarshal one mapping value: an array of integers or null. -/
def unmarshalPorts : Json → Except Err (List Int)
  | Json.null => .ok []
  | Json.arr xs =>
    List.foldr
      (fun x acc =>
        match x, acc with
        | Json.num n, .ok ns => .ok (n :: ns)
        | _, .error e => .error e
        | _, _ => .error Err.unmarshalType)
      (.ok []) xs
  | _ => .error Err.unmarshalType

/-- Go's `json.Unmarshal` of a JSON value into `map[string][]int`. -/
def unmarshalMappings : Json → Except Err (List (String × List Int))
  | Json.null => .ok []
  | Json.obj fs =>
    List.foldr
      (fun f acc =>
        match unmarshalPorts f.2, acc with
        | .ok ns, .ok rest => .ok ((f.1, ns) :: rest)
        | .error e, _ => .error e
        | _, .error e => .error e)
      (.ok []) fs
  | _ => .error Err.unmarshalType

/-- The server configuration the Panel returns for a uuid (opaque to the
installer; modelled as a blob). -/
structure SConfig where
  blob : String
deriving DecidableEq, Repr

/-- The constructed Server object. -/
structure Server where
  cfg : SConfig
deriving DecidableEq, Repr

/-- Modelled from the spec: `server.FromConfiguration` (not among the
provided sources) "constructs the Server object from" the configuration
fetched from the Panel (§4.6). -/
def FromConfiguration (c : SConfig) : Server := { cfg := c }

/-- The request-derived `server.Configuration` the installer builds
before fetching the authoritative configuration from the Panel. -/
structure InstallerCfg where
  uuid : String
  suspended : Bool
  invocation : String
  memoryLimit : Int
  swap : Int
  ioWeight : Int
  cpuLimit : Int
  diskSpace : Int
  threads : String
  crashDetectionEnabled : Bool
  defaultIp : String
  defaultPort : Int
  envVars : List (String × Json)
  mappings : List (String × List Int)
  image : String

/-- The installer holds the constructed Server. -/
structure Installer where
  server : Server
deriving DecidableEq, Repr

/-- The errors `installer.New` can return: the typed validation errors
(`NewValidationError`) versus every other error (jsonparser errors,
unmarshal errors, Panel fetch failures). -/
inductive NewError
  | validation (msg : String)
  | other (e : Err)
deriving DecidableEq, Repr

/-- `installer.New` from `installer/installer.go`: validate that `uuid`
and `service.egg` are version-4 UUIDs; build the request-derived
configuration with permissive zero-value defaults; require the
`environment` and `allocations.mappings` keys to be present
(jsonparser.Get) and unmarshalable; fetch the authoritative
configuration from the Panel for the uuid and construct the Server from
it. -/
def New (panel : String → Except Err SConfig) (data : Json) :
    Except NewError Installer :=
  if !isUUIDv4 (getString data [("uuid")]) then
    .error (NewError.validation ("uuid provided was not in a valid format"))
  else if !isUUIDv4 (getString data [("service"), ("egg")]) then
    .error (NewError.validation ("service egg provided was not in a valid format"))
  else
    let cfg : InstallerCfg :=
      { uuid := getString data [("uuid")]
        suspended := false
        invocation := getString data [("invocation")]
        memoryLimit := getInt data [("build"), ("memory")]
        swap := getInt data [("build"), ("swap")]
        ioWeight := getInt data [("build"), ("io")]
        cpuLimit := getInt data [("build"), ("cpu")]
        diskSpace := getInt data [("build"), ("disk")]
        threads := getString data [("build"), ("threads")]
        crashDetectionEnabled := true
        defaultIp := getString data [("allocations"), ("default"), ("ip")]
        defaultPort := (getInt data [("allocations"), ("default"), ("port")])
        envVars := []
        mappings := []
        image := ""
      }
    match jget data [("environment")] with
    | none => .error (NewError.other Err.keyPathNotFound)
    | some envJson =>
      match unmarshalEnvVars envJson with
      | .error e => .error (NewError.other e)
      | .ok envVars =>
        match jget data [("allocations"), ("mappings")] with
        | none => .error (NewError.other Err.keyPathNotFound)
        | some mapsJson =>
          match unmarshalMappings mapsJson with
          | .error e => .error (NewError.other e)
          | .ok maps =>
            let cfg2 := { cfg with
              envVars := envVars
              mappings := maps
              image := getString data [("container"), ("image")] }
            match panel cfg2.uuid with
            | .error e => .error (NewError.other e)
            | .ok c => .ok { server := FromConfiguration c }

/-!  Transition tables and event invariants. -/

/-- The spec's legal transition table (§3). -/
def legalTable : List (ProcessState × ProcessState) :=
  [(ProcessState.Offline, ProcessState.Starting),
   (ProcessState.Starting, ProcessState.Running),
   (ProcessState.Starting, ProcessState.Stopping),
   (ProcessState.Running, ProcessState.Stopping),
   (ProcessState.Stopping, ProcessState.Offline),
   (ProcessState.Running, ProcessState.Offline),
   (ProcessState.Starting, ProcessState.Offline)]

/-- The transition table the code actually guarantees: the legal table
plus the recovery edge Offline→Running (Start finding an
already-running container) and Offline→Stopping (Stop, Terminate or
Destroy invoked while the server is already offline). -/
def extTable : List (ProcessState × ProcessState) :=
  legalTable ++
    [(ProcessState.Offline, ProcessState.Running),
     (ProcessState.Offline, ProcessState.Stopping)]

/-- All state-change events in the list lie in the extended table. -/
def eventsOK (l : List (ProcessState × ProcessState)) : Prop :=
  ∀ p ∈ l, p ∈ extTable

/-- Whether an `Except` result is a success. -/
def exOk {ε α : Type} : Except ε α → Bool
  | .ok _ => true
  | .error _ => false

/-- Whether `Start`'s control flow reaches `setState(Starting)`: the
inspect reported not-found, or found a non-running container whose log
file was truncated without error (or did not exist). -/
def startEntersChain (i : StartInputs) : Bool :=
  match i.inspect with
  | .error e => e = Err.notFound
  | .ok c => !c.running && (!c.logPathExists || exOk i.truncate)

/-- Whether the `sawError`-guarded stretch of `Start` fails:
`OnBeforeStart` or `ContainerStart` returns an error. -/
def startChainFails (env : Env) (i : StartInputs) : Bool :=
  !exOk (OnBeforeStart env i.before).1 || !exOk i.startC

/-!  Concrete fixtures for the witness and counterexample runs. -/

/-- A concrete environment: command-type stop directive. -/
def envCmd : Env :=
  { image := ("img"), stopType := StopType.command, stopValue := ("stop") }

/-- Concrete `Stop` inputs: every runtime call succeeds. -/
def stopOkInputs : StopInputs :=
  { terminate :=
      { inspect := .ok { running := false, logPathExists := false }
        kill := .ok () }
    containerStop := .ok () }

/-- Concrete `Create` inputs: container absent, all calls succeed. -/
def createOkInputs : CreateInputs :=
  { inspect := .error Err.notFound
    ensure := { pull := .ok (), list := .ok [], scan := .ok () }
    create := .ok () }

/-- Concrete `Start` inputs: all calls succeed (container absent at the
initial inspect, attach succeeds). -/
def startOkInputs : StartInputs :=
  { inspect := .error Err.notFound
    truncate := .ok ()
    before := { remove := .ok (), create := createOkInputs }
    startC := .ok ()
    attach := { existsRes := (true, none), logs := .ok (), attach := .ok () } }

/-- Concrete `Start` inputs whose final `Attach` fails. -/
def startAttachFailInputs : StartInputs :=
  { startOkInputs with
    attach :=
      { existsRes := (true, none), logs := .ok ()
        attach := .error (Err.transport 5) } }

/-- Concrete `Start` inputs whose `OnBeforeStart` fails (the container
removal reports a transport error). -/
def startBeforeFailInputs : StartInputs :=
  { startOkInputs with
    before := { remove := .error (Err.transport 7), create := createOkInputs } }

/-- Concrete `Restart` inputs: stop, wait and start all succeed. -/
def restartOkInputs : RestartInputs :=
  { wfs :=
      { stop := stopOkInputs
        wait := WaitOutcome.stopped
        terminate :=
          { inspect := .ok { running := true, logPathExists := true }
            kill := .ok () } }
    start := startOkInputs }

/-- Concrete `Restart` inputs whose wait phase fails. -/
def restartWaitFailInputs : RestartInputs :=
  { restartOkInputs with
    wfs := { restartOkInputs.wfs with wait := WaitOutcome.waitErr (Err.transport 3) } }

/-- Concrete `WaitForStop` inputs that reach the deadline. -/
def wfsDeadlineInputs : WaitForStopInputs :=
  { stop := stopOkInputs
    wait := WaitOutcome.deadline
    terminate :=
      { inspect := .ok { running := true, logPathExists := true }
        kill := .ok () } }

/-- A world whose container already exists. -/
def wExists : World :=
  { containerExists := true, images := [], pullOk := true, listOk := true
    createOk := true }

/-- A world whose container is absent but where creation succeeds. -/
def wFresh : World :=
  { containerExists := false, images := [], pullOk := true, listOk := true
    createOk := true }

/-- A world where the pull fails, the image listing also fails, and no
local image is present. -/
def wListFail : World :=
  { containerExists := false, images := [], pullOk := false, listOk := false
    createOk := true }

/-- Concrete `Create` inputs where the pull fails but the configured
image exists locally. -/
def createLocalTagInputs : CreateInputs :=
  { inspect := .error Err.notFound
    ensure :=
      { pull := .error (Err.transport 0)
        list := .ok [{ repoTags := [("img")] }]
        scan := .ok () }
    create := .ok () }

/-- A Panel stub returning a fixed configuration for every uuid. -/
def panelC : String → Except Err SConfig := fun _ => .ok { blob := ("c") }

/-- An install payload with valid `uuid` and `service.egg` but no
`environment` key. -/
def p0 : Json :=
  Json.obj
    [(("uuid"), Json.str ("a0eebc99-9c0b-4ef8-bb6d-6bb9bd380a11")),
     (("service"), Json.obj [(("egg"), Json.str ("b1ffcd88-8d1c-4ae9-9c2d-5cc8cd481b22"))])]

/-- A complete valid install payload. -/
def p1 : Json :=
  Json.obj
    [(("uuid"), Json.str ("a0eebc99-9c0b-4ef8-bb6d-6bb9bd380a11")),
     (("service"), Json.obj [(("egg"), Json.str ("b1ffcd88-8d1c-4ae9-9c2d-5cc8cd481b22"))]),
     (("environment"), Json.obj []),
     (("allocations"), Json.obj [(("mappings"),
        Json.obj [(("127.0.0.1"), Json.arr [Json.num 25565])])])]

/-- A second valid payload with the same `uuid` and `service.egg` as
`p1` but different invocation, build limits, environment variables,
allocations and container image. -/
def p2 : Json :=
  Json.obj
    [(("uuid"), Json.str ("a0eebc99-9c0b-4ef8-bb6d-6bb9bd380a11")),
     (("service"), Json.obj [(("egg"), Json.str ("b1ffcd88-8d1c-4ae9-9c2d-5cc8cd481b22"))]),
     (("invocation"), Json.str ("java -jar server.jar")),
     (("build"), Json.obj [(("memory"), Json.num 2048), (("swap"), Json.num (-1))]),
     (("environment"), Json.obj [(("SERVER_JARFILE"), Json.str ("server.jar"))]),
     (("allocations"), Json.obj
        [(("default"), Json.obj [(("ip"), Json.str ("10.0.0.2")), (("port"), Json.num 25566)]),
         (("mappings"), Json.obj [(("10.0.0.2"), Json.arr [Json.num 25566, Json.num 25567])])]),
     (("container"), Json.obj [(("image"), Json.str ("quay.io/other:latest"))])]

theorem setState_state (ns : ProcessState) (es : EnvState) :
    (setState ns es).state = ns := by
  unfold setState
  split
  · next h => exact h
  · rfl

theorem setState_events (ns : ProcessState) (es : EnvState) :
    (setState ns es).events =
      if es.state = ns then es.events else es.events ++ [(es.state, ns)] := by
  unfold setState
  split <;> simp_all

theorem eventsOK_nil : eventsOK [] := by
  intro p hp
  cases hp

theorem eventsOK_append {l1 l2 : List (ProcessState × ProcessState)}
    (h1 : eventsOK l1) (h2 : eventsOK l2) : eventsOK (l1 ++ l2) := by
  intro p hp
  rcases List.mem_append.mp hp with h | h
  · exact h1 p h
  · exact h2 p h

theorem mem_ext_to_stopping (st : ProcessState)
    (h : st ≠ ProcessState.Stopping) :
    (st, ProcessState.Stopping) ∈ extTable := by
  cases st
  · decide
  · decide
  · decide
  · exact absurd rfl h

theorem mem_ext_to_offline (st : ProcessState)
    (h : st ≠ ProcessState.Offline) :
    (st, ProcessState.Offline) ∈ extTable := by
  cases st
  · exact absurd rfl h
  · decide
  · decide
  · decide

theorem eventsOK_setState_stopping {es : EnvState} (h : eventsOK es.events) :
    eventsOK (setState ProcessState.Stopping es).events := by
  rw [setState_events]
  split
  · exact h
  · next hne =>
    refine eventsOK_append h ?_
    intro p hp
    rw [List.mem_singleton] at hp
    subst hp
    exact mem_ext_to_stopping es.state hne

theorem eventsOK_setState_offline {es : EnvState} (h : eventsOK es.events) :
    eventsOK (setState ProcessState.Offline es).events := by
  rw [setState_events]
  split
  · exact h
  · next hne =>
    refine eventsOK_append h ?_
    intro p hp
    rw [List.mem_singleton] at hp
    subst hp
    exact mem_ext_to_offline es.state hne

theorem eventsOK_setState_starting {es : EnvState}
    (hst : es.state = ProcessState.Offline) (h : eventsOK es.events) :
    eventsOK (setState ProcessState.Starting es).events := by
  rw [setState_events]
  split
  · exact h
  · refine eventsOK_append h ?_
    intro p hp
    rw [List.mem_singleton] at hp
    subst hp
    rw [hst]
    decide

theorem eventsOK_setState_running {es : EnvState}
    (hst : es.state = ProcessState.Offline) (h : eventsOK es.events) :
    eventsOK (setState ProcessState.Running es).events := by
  rw [setState_events]
  split
  · exact h
  · refine eventsOK_append h ?_
    intro p hp
    rw [List.mem_singleton] at hp
    subst hp
    rw [hst]
    decide

theorem Attach_snd_events (i : AttachInputs) (es : EnvState) :
    (Attach i es).2.events = es.events := by
  unfold Attach
  split
  · rfl
  · split
    · rfl
    · split <;> rfl

theorem Attach_snd_state (i : AttachInputs) (es : EnvState) :
    (Attach i es).2.state = es.state := by
  unfold Attach
  split
  · rfl
  · split
    · rfl
    · split <;> rfl

theorem SendCommand_snd_events (cmd : String) (es : EnvState) :
    (SendCommand cmd es).2.1.events = es.events := by
  unfold SendCommand
  split <;> rfl

theorem Terminate_eventsOK (sigStr : String) (i : TerminateInputs)
    (es : EnvState) (h : eventsOK es.events) :
    eventsOK (Terminate sigStr i es).2.1.events := by
  unfold Terminate
  split
  · exact h
  · split
    · exact h
    · split
      · exact eventsOK_setState_stopping h
      · exact eventsOK_setState_offline (eventsOK_setState_stopping h)

theorem Stop_eventsOK (env : Env) (i : StopInputs) (es : EnvState)
    (h : eventsOK es.events) : eventsOK (Stop env i es).2.1.events := by
  have h1 : eventsOK (setState ProcessState.Stopping es).events :=
    eventsOK_setState_stopping h
  unfold Stop
  split
  · exact Terminate_eventsOK _ _ _ h
  · split
    · rw [SendCommand_snd_events]
      exact h1
    · split
      · exact h1
      · split
        · exact eventsOK_setState_offline h1
        · exact h1

theorem Destroy_eventsOK (r : DRes Unit) (es : EnvState)
    (h : eventsOK es.events) : eventsOK (Destroy r es).2.1.events := by
  have h1 : eventsOK (setState ProcessState.Stopping es).events :=
    eventsOK_setState_stopping h
  unfold Destroy
  split
  · split
    · exact h1
    · exact eventsOK_setState_offline h1
  · exact eventsOK_setState_offline h1

theorem WaitForStop_eventsOK (env : Env) (seconds : Nat) (term : Bool)
    (i : WaitForStopInputs) (es : EnvState) (h : eventsOK es.events) :
    eventsOK (WaitForStop env seconds term i es).2.1.events := by
  unfold WaitForStop
  rcases hs : Stop env i.stop es with ⟨r, es1, a1⟩
  have h1 : eventsOK es1.events := by
    have h2 := Stop_eventsOK env i.stop es h
    rw [hs] at h2
    exact h2
  cases r with
  | error e => exact h1
  | ok u =>
    dsimp only
    cases i.wait with
    | deadline =>
      dsimp only
      split
      · exact Terminate_eventsOK osKillName i.terminate es1 h1
      · exact h1
    | waitErr e => exact h1
    | waitErrNil => exact h1
    | stopped => exact h1

theorem startChain_eventsOK (env : Env) (i : StartInputs) (es : EnvState)
    (acts : List Action) (hst : es.state = ProcessState.Offline)
    (h : eventsOK es.events) :
    eventsOK (startChain env i es acts).2.1.events := by
  have h1 : eventsOK (setState ProcessState.Starting es).events :=
    eventsOK_setState_starting hst h
  unfold startChain
  split
  · exact eventsOK_setState_offline (eventsOK_setState_stopping h1)
  · split
    · exact eventsOK_setState_offline (eventsOK_setState_stopping h1)
    · rw [Attach_snd_events]
      exact h1

theorem Start_eventsOK (env : Env) (i : StartInputs) (es : EnvState)
    (hst : es.state = ProcessState.Offline) (h : eventsOK es.events) :
    eventsOK (Start env i es).2.1.events := by
  unfold Start
  split
  · split
    · exact startChain_eventsOK env i es [] hst h
    · exact h
  · split
    · rw [Attach_snd_events]
      exact eventsOK_setState_running hst h
    · split
      · split
        · exact h
        · exact startChain_eventsOK env i es [Action.truncateLog] hst h
      · exact startChain_eventsOK env i es [] hst h

theorem onStreamClose_eventsOK (es : EnvState) (h : eventsOK es.events) :
    eventsOK (onStreamClose es).events := by
  unfold onStreamClose
  exact eventsOK_setState_offline h

/-!  Claim C1: the state-transition table. -/

/-- Claim C1, amended: with `Start` invoked only from Offline (its
declared precondition), every state-change pair produced by `Start`,
`Stop`, `WaitForStop`, `Terminate`, `Destroy` or the attach-stream
close handler lies in the legal transition table extended with the two
edges the code additionally produces: Offline→Running (Start finding the
container already running) and Offline→Stopping (Stop, Terminate or
Destroy invoked while the server is already offline). -/
theorem C1_transition_table (env : Env) (op : Op) (st : ProcessState)
    (att : Bool)
    (hstart : ∀ i, op = Op.start i → st = ProcessState.Offline) :
    eventsOK (runOp env op
      { state := st, events := [], attached := att }).2.1.events := by
  cases op with
  | start i => exact Start_eventsOK env i _ (hstart i rfl) eventsOK_nil
  | stop i => exact Stop_eventsOK env i _ eventsOK_nil
  | waitForStop s t i => exact WaitForStop_eventsOK env s t i _ eventsOK_nil
  | terminate sg i => exact Terminate_eventsOK sg i _ eventsOK_nil
  | destroy r => exact Destroy_eventsOK r _ eventsOK_nil
  | streamClose => exact onStreamClose_eventsOK _ eventsOK_nil

/-- Witness for C1: a concrete `Destroy` run from Running produces only
pairs of the extended table. -/
theorem C1_transition_table_witness :
    eventsOK (runOp envCmd (Op.destroy (Except.ok ()))
      { state := ProcessState.Running, events := [],
        attached := false }).2.1.events :=
  C1_transition_table envCmd (Op.destroy (Except.ok ())) ProcessState.Running
    false (fun i h => nomatch h)

/-- Counterexample for C1 as stated: `Stop` invoked while the server is
Offline (command-type stop directive, not attached, runtime stop
succeeding) publishes the state-change pair (Offline, Stopping), which
is not in the spec's legal transition table. -/
theorem C1_counterexample :
    (runOp envCmd (Op.stop stopOkInputs)
        { state := ProcessState.Offline, events := [],
          attached := false }).2.1.events
      = [(ProcessState.Offline, ProcessState.Stopping)] ∧
    (ProcessState.Offline, ProcessState.Stopping) ∉ legalTable := by
  constructor
  · rfl
  · decide

/-!  Claim C3: Restart has no serialization. -/

/-- Claim C3 (refuted; the code has no restarting flag): a `Restart`
call — in particular one issued while another restart cycle is already
in flight, since the code consults no shared flag whatsoever —
unconditionally performs the full stop-then-start cycle: from a Running
attached server with a healthy runtime it returns success, issues the
container-start command, and never returns a RestartInProgress error. -/
theorem C3_restart_unserialized :
    (Restart envCmd restartOkInputs
      { state := ProcessState.Running, events := [], attached := true }).1
        = .ok () ∧
    Action.startContainer ∈
      (Restart envCmd restartOkInputs
        { state := ProcessState.Running, events := [], attached := true }).2.2 ∧
    (Restart envCmd restartOkInputs
      { state := ProcessState.Running, events := [], attached := true }).1
        ≠ .error Err.restartInProgress := by
  refine ⟨rfl, ?_, by decide⟩
  decide

/-!  Claim C4: Restart refines WaitForStop-then-Start. -/

/-- Claim C4: `Restart` is behaviourally equal to `WaitForStop(60,
false)` followed (only on success) by `Start`; when `WaitForStop`
returns an error, `Restart`'s entire outcome — result, state and issued
commands — is exactly `WaitForStop`'s, so `Start` is not invoked. -/
theorem C4_restart_refinement (env : Env) (i : RestartInputs) (es : EnvState) :
    Restart env i es = RestartSpec env i es ∧
    (exOk (WaitForStop env 60 false i.wfs es).1 = false →
      Restart env i es = WaitForStop env 60 false i.wfs es) := by
  constructor
  · unfold Restart RestartSpec
    rcases hw : WaitForStop env 60 false i.wfs es with ⟨r, es1, a1⟩
    cases r <;> rfl
  · intro h
    unfold Restart
    rcases hw : WaitForStop env 60 false i.wfs es with ⟨r, es1, a1⟩
    cases r with
    | error e => rfl
    | ok u =>
      rw [hw] at h
      exact absurd h (by simp [exOk])

/-- Witness for C4: at a concrete erroring wait phase, `Restart` returns
exactly `WaitForStop`'s outcome. -/
theorem C4_restart_refinement_witness :
    Restart envCmd restartWaitFailInputs
        { state := ProcessState.Running, events := [], attached := true }
      = WaitForStop envCmd 60 false restartWaitFailInputs.wfs
        { state := ProcessState.Running, events := [], attached := true } :=
  (C4_restart_refinement envCmd restartWaitFailInputs
    { state := ProcessState.Running, events := [], attached := true }).2
    (by decide)

/-!  Claim C5: Destroy. -/

/-- Claim C5, amended: every `Destroy` call first sets Stopping, then
removes the container with force and volume removal; on successful
removal — or on a removal error other than not-found — it sets Offline;
when the runtime reports not-found it returns success WITHOUT the
Offline transition, leaving the state at Stopping. -/
theorem C5_destroy (st : ProcessState) (att : Bool) (r : DRes Unit) :
    (Destroy r { state := st, events := [], attached := att }).2.2
      = [Action.removeContainer true true] ∧
    (r = .ok () →
      (Destroy r { state := st, events := [], attached := att }).1 = .ok () ∧
      (Destroy r { state := st, events := [], attached := att }).2.1.state
        = ProcessState.Offline) ∧
    (r = .error Err.notFound →
      (Destroy r { state := st, events := [], attached := att }).1 = .ok () ∧
      (Destroy r { state := st, events := [], attached := att }).2.1.state
        = ProcessState.Stopping) ∧
    (∀ e, e ≠ Err.notFound → r = .error e →
      (Destroy r { state := st, events := [], attached := att }).1 = .error e ∧
      (Destroy r { state := st, events := [], attached := att }).2.1.state
        = ProcessState.Offline) ∧
    (Destroy r { state := st, events := [], attached := att }).2.1.events
      = (if st = ProcessState.Stopping then []
          else [(st, ProcessState.Stopping)]) ++
        (if r = .error Err.notFound then []
          else [(ProcessState.Stopping, ProcessState.Offline)]) := by
  cases r with
  | ok u =>
    refine ⟨rfl, ?_, ?_, ?_, ?_⟩
    · intro hr
      exact ⟨rfl, setState_state _ _⟩
    · intro hr
      simp at hr
    · intro e2 he2 hr
      simp at hr
    · dsimp only [Destroy]
      rw [setState_events, setState_state, setState_events]
      by_cases hst : st = ProcessState.Stopping <;> simp [hst]
  | error e =>
    by_cases he : e = Err.notFound
    · subst he
      refine ⟨?_, ?_, ?_, ?_, ?_⟩
      · dsimp only [Destroy]
        rw [if_pos rfl]
      · intro hr
        simp at hr
      · intro hr
        dsimp only [Destroy]
        rw [if_pos rfl]
        exact ⟨rfl, setState_state _ _⟩
      · intro e2 he2 hr
        injection hr with h2
        exact absurd h2.symm he2
      · dsimp only [Destroy]
        rw [if_pos rfl]
        rw [setState_events]
        by_cases hst : st = ProcessState.Stopping <;> simp [hst]
    · refine ⟨?_, ?_, ?_, ?_, ?_⟩
      · dsimp only [Destroy]
        rw [if_neg he]
      · intro hr
        simp at hr
      · intro hr
        injection hr with h2
        exact absurd h2 he
      · intro e2 he2 hr
        injection hr with h2
        subst h2
        dsimp only [Destroy]
        rw [if_neg he]
        exact ⟨rfl, setState_state _ _⟩
      · dsimp only [Destroy]
        rw [if_neg he]
        rw [setState_events, setState_state, setState_events]
        by_cases hst : st = ProcessState.Stopping <;> simp [hst, he]

/-- Witness for C5: a concrete not-found `Destroy` from Running returns
success with the state left at Stopping. -/
theorem C5_destroy_witness :
    (Destroy (Except.error Err.notFound)
      { state := ProcessState.Running, events := [], attached := true }).1
        = .ok () ∧
    (Destroy (Except.error Err.notFound)
      { state := ProcessState.Running, events := [], attached := true }).2.1.state
        = ProcessState.Stopping :=
  (C5_destroy ProcessState.Running true (Except.error Err.notFound)).2.2.1 rfl

/-- Counterexample for C5 as stated: when the runtime reports not-found,
`Destroy` returns success without ever setting Offline — the state stays
Stopping, contradicting "sets the state to Stopping and then to Offline
before returning". -/
theorem C5_counterexample :
    (Destroy (Except.error Err.notFound)
      { state := ProcessState.Running, events := [], attached := true }).1
        = .ok () ∧
    (Destroy (Except.error Err.notFound)
      { state := ProcessState.Running, events := [], attached := true }).2.1.state
        ≠ ProcessState.Offline ∧
    (ProcessState.Stopping, ProcessState.Offline) ∉
      (Destroy (Except.error Err.notFound)
        { state := ProcessState.Running, events := [],
          attached := true }).2.1.events := by
  refine ⟨rfl, by decide, by decide⟩

/-!  Claim C2: error handling in Start. -/

theorem startChain_fail (env : Env) (i : StartInputs) (att : Bool)
    (acts : List Action) (h2 : startChainFails env i = true) :
    exOk (startChain env i
      { state := ProcessState.Offline, events := [], attached := att }
      acts).1 = false ∧
    (startChain env i
      { state := ProcessState.Offline, events := [], attached := att }
      acts).2.1
      = { state := ProcessState.Offline,
          events := [(ProcessState.Offline, ProcessState.Starting),
                     (ProcessState.Starting, ProcessState.Stopping),
                     (ProcessState.Stopping, ProcessState.Offline)],
          attached := att } := by
  unfold startChainFails at h2
  rcases hb : OnBeforeStart env i.before with ⟨r, a2⟩
  rw [hb] at h2
  unfold startChain
  rw [hb]
  cases r with
  | error e =>
    exact ⟨rfl, by simp [setState]⟩
  | ok u =>
    simp only [exOk, Bool.not_true, Bool.false_or] at h2
    cases hc : i.startC with
    | error e =>
      exact ⟨rfl, by simp [setState]⟩
    | ok v =>
      rw [hc] at h2
      simp [exOk] at h2

/-- Claim C2, amended: every execution of `Start` whose control reaches
the Starting transition and then fails in `OnBeforeStart` or in the
container-start command propagates the error with the state deposited at
Offline via an immediately preceding Stopping transition; however, an
error from the initial inspection or log truncation propagates with no
state change at all, and an error from the final `Attach` propagates
with the state left at Starting (or Running on the already-running
recovery path). -/
theorem C2_start_error_resets_state (env : Env) (i : StartInputs) (att : Bool)
    (h1 : startEntersChain i = true) (h2 : startChainFails env i = true) :
    exOk (Start env i
      { state := ProcessState.Offline, events := [], attached := att }).1
        = false ∧
    (Start env i
      { state := ProcessState.Offline, events := [], attached := att }).2.1
      = { state := ProcessState.Offline,
          events := [(ProcessState.Offline, ProcessState.Starting),
                     (ProcessState.Starting, ProcessState.Stopping),
                     (ProcessState.Stopping, ProcessState.Offline)],
          attached := att } := by
  unfold startEntersChain at h1
  unfold Start
  cases hi : i.inspect with
  | error e =>
    rw [hi] at h1
    simp only [decide_eq_true_eq] at h1
    subst h1
    dsimp only
    rw [if_pos rfl]
    exact startChain_fail env i att [] h2
  | ok c =>
    rw [hi] at h1
    simp only [Bool.and_eq_true, Bool.not_eq_true', Bool.or_eq_true,
      Bool.not_eq_true] at h1
    obtain ⟨hrun, hrest⟩ := h1
    dsimp only
    rw [hrun]
    simp only [Bool.false_eq_true, if_false]
    rcases hrest with hlog | htr
    · rw [hlog]
      simp only [Bool.false_eq_true, if_false]
      exact startChain_fail env i att [] h2
    · by_cases hlog : c.logPathExists
      · rw [hlog]
        simp only [if_true]
        cases hc : i.truncate with
        | error e =>
          rw [hc] at htr
          simp [exOk] at htr
        | ok u =>
          exact startChain_fail env i att [Action.truncateLog] h2
      · simp only [hlog, if_false]
        exact startChain_fail env i att [] h2

/-- Witness for C2: a concrete run whose `OnBeforeStart` fails ends
with an error, state Offline, and the Starting→Stopping→Offline event
trail. -/
theorem C2_start_error_resets_state_witness :
    exOk (Start envCmd startBeforeFailInputs
      { state := ProcessState.Offline, events := [], attached := false }).1
        = false ∧
    (Start envCmd startBeforeFailInputs
      { state := ProcessState.Offline, events := [], attached := false }).2.1
      = { state := ProcessState.Offline,
          events := [(ProcessState.Offline, ProcessState.Starting),
                     (ProcessState.Starting, ProcessState.Stopping),
                     (ProcessState.Stopping, ProcessState.Offline)],
          attached := false } :=
  C2_start_error_resets_state envCmd startBeforeFailInputs false
    (by decide) (by decide)

/-- Counterexample for C2 as stated: when everything up to and
including the container-start command succeeds but the final `Attach`
fails, `Start` returns that error with the state left at Starting — an
error return from `Start` that does not pass through Stopping→Offline. -/
theorem C2_counterexample :
    exOk (Start envCmd startAttachFailInputs
      { state := ProcessState.Offline, events := [], attached := false }).1
        = false ∧
    (Start envCmd startAttachFailInputs
      { state := ProcessState.Offline, events := [], attached := false }).2.1.state
        = ProcessState.Starting := ⟨rfl, rfl⟩

/-!  Claim C7: WaitForStop. -/

/-- Claim C7: `WaitForStop(seconds, terminate)` calls `Stop` first
(propagating its entire outcome on error), then blocks until the
container is no longer running or the deadline elapses; when the wait
ends normally it returns success with no further commands; on deadline
expiry with `terminate = false` it returns the timeout error having
issued no further command (in particular no kill beyond whatever `Stop`
itself did); on deadline expiry with `terminate = true` it escalates to
`Terminate(os.Kill)`, and actually issues the kill command whenever the
inspect there sees the container still running. -/
theorem C7_waitForStop (env : Env) (seconds : Nat) (term : Bool)
    (i : WaitForStopInputs) (es : EnvState) :
    (∀ e es1 a1, Stop env i.stop es = (.error e, es1, a1) →
      WaitForStop env seconds term i es = (.error e, es1, a1)) ∧
    (∀ u es1 a1, Stop env i.stop es = (.ok u, es1, a1) →
      (i.wait = WaitOutcome.stopped →
        WaitForStop env seconds term i es = (.ok (), es1, a1)) ∧
      (i.wait = WaitOutcome.deadline → term = false →
        WaitForStop env seconds term i es = (.error Err.timeout, es1, a1)) ∧
      (i.wait = WaitOutcome.deadline → term = true →
        WaitForStop env seconds term i es
          = ((Terminate osKillName i.terminate es1).1,
             (Terminate osKillName i.terminate es1).2.1,
             a1 ++ (Terminate osKillName i.terminate es1).2.2)) ∧
      (i.wait = WaitOutcome.deadline → term = true →
        ∀ c, i.terminate.inspect = .ok c → c.running = true →
          Action.killContainer (signalName osKillName) ∈
            (WaitForStop env seconds term i es).2.2)) := by
  constructor
  · intro e es1 a1 hs
    unfold WaitForStop
    rw [hs]
  · intro u es1 a1 hs
    refine ⟨?_, ?_, ?_, ?_⟩
    · intro hw
      unfold WaitForStop
      rw [hs]
      dsimp only
      rw [hw]
    · intro hw ht
      unfold WaitForStop
      rw [hs]
      dsimp only
      rw [hw, ht]
      rfl
    · intro hw ht
      unfold WaitForStop
      rw [hs]
      dsimp only
      rw [hw, ht]
      rfl
    · intro hw ht c hc hr
      unfold WaitForStop
      rw [hs]
      dsimp only
      rw [hw, ht]
      dsimp only
      rw [if_pos rfl]
      dsimp only
      rw [List.mem_append]
      right
      unfold Terminate
      rw [hc]
      dsimp only
      rw [hr]
      cases hk : i.terminate.kill <;> simp

/-- Witness for C7: a concrete deadline expiry with `terminate = false`
returns the timeout error with exactly `Stop`'s state and commands. -/
theorem C7_waitForStop_witness :
    WaitForStop envCmd 60 false wfsDeadlineInputs
      { state := ProcessState.Running, events := [], attached := true }
      = (.error Err.timeout,
         { state := ProcessState.Stopping,
           events := [(ProcessState.Running, ProcessState.Stopping)],
           attached := true },
         [Action.sendCommand ("stop")]) :=
  ((C7_waitForStop envCmd 60 false wfsDeadlineInputs
      { state := ProcessState.Running, events := [], attached := true }).2
    () { state := ProcessState.Stopping,
         events := [(ProcessState.Running, ProcessState.Stopping)],
         attached := true }
    [Action.sendCommand ("stop")] (by decide)).2.1 rfl rfl

/-!  Claim C6: Create is a no-op on an existing container. -/

theorem ensure_acts (image : String) (e : EnsureInputs) :
    (ensureImageExists image e).2 = [Action.pullImage image] := by
  unfold ensureImageExists
  split
  · split
    · rfl
    · split <;> rfl
  · split <;> rfl

theorem CreateW_exists (env : Env) (w : World)
    (h : w.containerExists = true) :
    CreateW env w = (.ok (), w, []) := by
  unfold CreateW Create worldInputs
  rw [h]
  rfl

theorem Create_ok_acts (env : Env) (i : CreateInputs)
    (hni : i.inspect = .error Err.notFound)
    (h : (Create env i).1 = .ok ()) :
    (Create env i).2 = [Action.pullImage env.image, Action.createContainer] := by
  unfold Create at h ⊢
  rw [hni] at h ⊢
  dsimp only at h ⊢
  rw [if_neg (by simp)] at h ⊢
  rcases he : ensureImageExists env.image i.ensure with ⟨r2, acts⟩
  rw [he] at h
  have ha : acts = [Action.pullImage env.image] := by
    have h3 := ensure_acts env.image i.ensure
    rw [he] at h3
    exact h3
  subst ha
  cases r2 with
  | error e2 =>
    dsimp only at h
    simp at h
  | ok u =>
    cases hc : i.create with
    | error e3 =>
      rw [hc] at h
      dsimp only at h
      simp at h
    | ok v => rfl

theorem CreateW_ok_exists (env : Env) (w : World)
    (h : (CreateW env w).1 = .ok ()) :
    (CreateW env w).2.1.containerExists = true := by
  by_cases hex : w.containerExists
  · rw [CreateW_exists env w hex]
    exact hex
  · have hni : (worldInputs w).inspect = .error Err.notFound := by
      unfold worldInputs
      rw [Bool.not_eq_true] at hex
      rw [hex]
      rfl
    have hacts := Create_ok_acts env (worldInputs w) hni h
    show (applyActions w (Create env (worldInputs w)).2).containerExists = true
    rw [hacts]
    rfl

/-- Claim C6: when the container already exists, `Create` succeeds with
no side effects — no image pull, no container creation or modification,
the world unchanged — and consequently a successful `Create` followed by
`Create` equals a single `Create`: the second call succeeds with no side
effects. -/
theorem C6_create_idempotent (env : Env) (w : World) :
    (w.containerExists = true → CreateW env w = (.ok (), w, [])) ∧
    ((CreateW env w).1 = .ok () →
      CreateW env (CreateW env w).2.1 = (.ok (), (CreateW env w).2.1, [])) := by
  constructor
  · exact CreateW_exists env w
  · intro h
    exact CreateW_exists env _ (CreateW_ok_exists env w h)

/-- Witness for C6: a concrete existing-container world is returned
unchanged, and a concrete fresh creation followed by `Create` is a
no-op. -/
theorem C6_create_idempotent_witness :
    CreateW envCmd wExists = (.ok (), wExists, []) ∧
    CreateW envCmd (CreateW envCmd wFresh).2.1
      = (.ok (), (CreateW envCmd wFresh).2.1, []) :=
  ⟨(C6_create_idempotent envCmd wExists).1 rfl,
   (C6_create_idempotent envCmd wFresh).2 rfl⟩

/-!  Claim C8: image pull fallback. -/

/-- Claim C8, amended: during container creation, when the image pull
fails and the local image listing succeeds, creation proceeds (the pull
error is only logged) exactly when some local image's tag equals the
configured reference, and otherwise fails with the pull error; when the
local image listing itself fails, creation fails with the listing error
rather than the pull error. -/
theorem C8_image_pull_fallback (env : Env) (i : CreateInputs) (pe : Err)
    (h0 : i.inspect = .error Err.notFound)
    (hp : i.ensure.pull = .error pe) :
    (∀ imgs, i.ensure.list = .ok imgs → hasLocalTag env.image imgs = true →
      Create env i
        = (i.create, [Action.pullImage env.image, Action.createContainer])) ∧
    (∀ imgs, i.ensure.list = .ok imgs → hasLocalTag env.image imgs = false →
      Create env i = (.error pe, [Action.pullImage env.image])) ∧
    (∀ le, i.ensure.list = .error le →
      Create env i = (.error le, [Action.pullImage env.image])) := by
  refine ⟨?_, ?_, ?_⟩
  · intro imgs hl ht
    unfold Create ensureImageExists
    rw [h0]
    dsimp only
    rw [if_neg (by simp), hp, hl]
    dsimp only
    rw [ht, if_pos rfl]
    dsimp only
    cases hc : i.create <;> rfl
  · intro imgs hl ht
    unfold Create ensureImageExists
    rw [h0]
    dsimp only
    rw [if_neg (by simp), hp, hl]
    dsimp only
    rw [ht, if_neg (by simp)]
  · intro le hl
    unfold Create ensureImageExists
    rw [h0]
    dsimp only
    rw [if_neg (by simp), hp, hl]

/-- Witness for C8: a concrete failed pull with the image available
locally still creates the container. -/
theorem C8_image_pull_fallback_witness :
    Create envCmd createLocalTagInputs
      = (.ok (), [Action.pullImage ("img"), Action.createContainer]) :=
  (C8_image_pull_fallback envCmd createLocalTagInputs (Err.transport 0)
    rfl rfl).1 [{ repoTags := [("img")] }] rfl (by decide)

/-- Counterexample for C8 as stated: pull fails (transport 0), no local
image exists, and the listing also fails (transport 1) — creation fails
with the listing error, not the pull error the claim promises. -/
theorem C8_counterexample :
    (worldInputs wListFail).ensure.pull = .error (Err.transport 0) ∧
    hasLocalTag envCmd.image wListFail.images = false ∧
    (CreateW envCmd wListFail).1 = .error (Err.transport 1) ∧
    (CreateW envCmd wListFail).1 ≠ .error (Err.transport 0) := by
  refine ⟨rfl, rfl, rfl, by decide⟩

/-!  Claims C9 and C10: the installer constructor. -/

/-- Claim C9, amended: the installer constructor returns a typed
validation error exactly when `uuid` or `service.egg` is not a
version-4 UUID, and those are the only validation-checked fields; but
beyond them the `environment` and `allocations.mappings` keys must be
present and well-typed — their absence or malformation fails the
constructor with a non-validation error instead of defaulting — while
every remaining field is deserialized permissively, so that with those
keys present and the Panel fetch succeeding the constructor succeeds. -/
theorem C9_installer_validation (panel : String → Except Err SConfig)
    (data : Json) :
    ((∃ m, New panel data = .error (NewError.validation m)) ↔
      (isUUIDv4 (getString data [("uuid")]) = false ∨
       isUUIDv4 (getString data [("service"), ("egg")]) = false)) ∧
    (isUUIDv4 (getString data [("uuid")]) = true →
     isUUIDv4 (getString data [("service"), ("egg")]) = true →
     ∀ envJson, jget data [("environment")] = some envJson →
     ∀ vars, unmarshalEnvVars envJson = .ok vars →
     ∀ mapsJson, jget data [("allocations"), ("mappings")] = some mapsJson →
     ∀ maps, unmarshalMappings mapsJson = .ok maps →
     ∀ c, panel (getString data [("uuid")]) = .ok c →
       New panel data = .ok { server := FromConfiguration c }) := by
  constructor
  · constructor
    · rintro ⟨m, hm⟩
      by_contra hcon
      push_neg at hcon
      obtain ⟨hu0, hv0⟩ := hcon
      have hu : isUUIDv4 (getString data [("uuid")]) = true := by
        cases hB : isUUIDv4 (getString data [("uuid")])
        · exact absurd hB hu0
        · rfl
      have hv : isUUIDv4 (getString data [("service"), ("egg")]) = true := by
        cases hB : isUUIDv4 (getString data [("service"), ("egg")])
        · exact absurd hB hv0
        · rfl
      unfold New at hm
      rw [hu, hv] at hm
      simp only [Bool.not_true, Bool.false_eq_true, if_false] at hm
      split at hm
      · simp at hm
      · split at hm
        · simp at hm
        · split at hm
          · simp at hm
          · split at hm
            · simp at hm
            · split at hm
              · simp at hm
              · simp at hm
    · intro h
      by_cases hu : isUUIDv4 (getString data [("uuid")])
      · rcases h with h | h
        · rw [hu] at h
          simp at h
        · refine ⟨("service egg provided was not in a valid format"), ?_⟩
          unfold New
          rw [hu, h]
          rfl
      · rw [Bool.not_eq_true] at hu
        refine ⟨("uuid provided was not in a valid format"), ?_⟩
        unfold New
        rw [hu]
        rfl
  · intro hu hv envJson henv vars hvars mapsJson hmaps maps hmm c hc
    unfold New
    rw [hu, hv]
    simp only [Bool.not_true, Bool.false_eq_true, if_false]
    rw [henv]
    dsimp only
    rw [hvars]
    dsimp only
    rw [hmaps]
    dsimp only
    rw [hmm]
    dsimp only
    rw [hc]

/-- Witness for C9: the complete valid payload `p1` passes validation
and constructs the server from the Panel configuration. -/
theorem C9_installer_validation_witness :
    New panelC p1 = .ok { server := FromConfiguration { blob := ("c") } } :=
  (C9_installer_validation panelC p1).2 (by decide) (by decide)
    (Json.obj []) rfl [] rfl
    (Json.obj [(("127.0.0.1"), Json.arr [Json.num 25565])]) rfl
    [((("127.0.0.1") : String), ([(25565 : Int)]))] rfl
    { blob := ("c") } rfl

/-- Counterexample for C9 as stated: a payload with perfectly valid
`uuid` and `service.egg` but no `environment` key fails the constructor
— so those two are not the only fields whose absence causes a failure,
and the other fields do not all default to zero values. -/
theorem C9_counterexample :
    isUUIDv4 (getString p0 [("uuid")]) = true ∧
    isUUIDv4 (getString p0 [("service"), ("egg")]) = true ∧
    New panelC p0 = .error (NewError.other Err.keyPathNotFound) := by
  refine ⟨by decide, by decide, rfl⟩

theorem New_ok_shape (panel : String → Except Err SConfig) (d : Json)
    (i : Installer) (h : New panel d = .ok i) :
    ∃ c, panel (getString d [("uuid")]) = .ok c ∧
      i = { server := FromConfiguration c } := by
  unfold New at h
  dsimp only at h
  split at h
  · simp at h
  · split at h
    · simp at h
    · split at h
      · simp at h
      · split at h
        · simp at h
        · split at h
          · simp at h
          · split at h
            · simp at h
            · split at h
              · simp at h
              · rename_i c hc
                refine ⟨c, ?_, ?_⟩
                · exact hc
                · injection h with h2
                  exact h2.symm

/-- Claim C10: two valid payloads that agree on `uuid` and both parse
successfully produce the same Server, whatever their other fields — the
Server is built exclusively from the Panel's configuration for that
uuid. -/
theorem C10_server_from_panel_only (panel : String → Except Err SConfig)
    (d1 d2 : Json) (i1 i2 : Installer)
    (hu : getString d1 [("uuid")] = getString d2 [("uuid")])
    (h1 : New panel d1 = .ok i1) (h2 : New panel d2 = .ok i2) :
    i1 = i2 := by
  obtain ⟨c1, hc1, hi1⟩ := New_ok_shape panel d1 i1 h1
  obtain ⟨c2, hc2, hi2⟩ := New_ok_shape panel d2 i2 h2
  rw [hu] at hc1
  rw [hc1] at hc2
  injection hc2 with hcc
  rw [hi1, hi2, hcc]

/-- Witness for C10: the payloads `p1` and `p2` differ in invocation,
build limits, environment variables, allocations and image, yet the
constructor yields the same result. -/
theorem C10_server_from_panel_only_witness :
    New panelC p1 = New panelC p2 := by
  have h1 : New panelC p1
      = Except.ok ({ server := { cfg := { blob := ("c") } } } : Installer) := rfl
  have h2 : New panelC p2
      = Except.ok ({ server := { cfg := { blob := ("c") } } } : Installer) := rfl
  have h12 := C10_server_from_panel_only panelC p1 p2
    { server := { cfg := { blob := ("c") } } }
    { server := { cfg := { blob := ("c") } } } (by decide) h1 h2
  calc New panelC p1
      = Except.ok ({ server := { cfg := { blob := ("c") } } } : Installer) := h1
    _ = Except.ok ({ server := { cfg := { blob := ("c") } } } : Installer) :=
        congrArg Except.ok h12
    _ = New panelC p2 := h2.symm

end Wings
